import Mathlib

/-!
Verification of the Network-Simulator repository: a shallow embedding of
the optimistic-update / rollback / retry protocol of `useSendMoney`
(src/hooks/useTransactions.ts), the mock API handlers and chaos-mode fault
injection (src/api/transactions.ts), the query-client defaults (main.tsx)
and the form validation (SendMoneyForm.tsx), together with proofs of the
spec's testable properties against these definitions.

Conventions of the embedding:
- JS numbers carrying money amounts and random draws are modelled as `ℚ`.
- `Date.now()` is passed in explicitly as a `Nat` parameter `now`.
- The react-query cache entry for the `transactions` key is
  `Option (List Transaction)`: `none` models an `undefined` cache
  (no data fetched yet), `some l` a cached list.
- Randomness (`Math.random()`) is passed in as explicit draws.
-/

namespace NetworkSim

/-- JS `String.prototype.startsWith`, modelled as a character-list
prefix test (`p.data.isPrefixOf s.data`), which is the JS semantics. -/
def strStartsWith (s p : String) : Bool :=
  List.isPrefixOf p.data s.data

/-- Transaction status, from src/types.ts: `'pending' | 'completed' | 'failed'`. -/
inductive Status where
  | pending
  | completed
  | failed
deriving DecidableEq

/-- The `Transaction` interface from src/types.ts. -/
structure Transaction where
  id : String
  amount : ℚ
  recipient : String
  timestamp : Nat
  status : Status
deriving DecidableEq

/-- The `SendMoneyRequest` interface from src/types.ts. -/
structure SendMoneyRequest where
  amount : ℚ
  recipient : String
deriving DecidableEq

/-- The react-query cache entry for the `transactions` query key.
`none` models `undefined` (nothing cached), exactly what
`queryClient.getQueryData` returns before any data exists. -/
abbrev Cache := Option (List Transaction)

/-- The context object returned by `onMutate` in `useSendMoney`:
`{ previousTransactions, newTransaction }`. `previousTransactions` is the
snapshot of the cache, which is `undefined` (`none`) when no data was
cached at submission time. -/
structure MutationContext where
  previousTransactions : Option (List Transaction)
  newTransaction : SendMoneyRequest
deriving DecidableEq

/-- The optimistic transaction built in `onMutate`:
`{ id: temp-Date.now(), amount, recipient, timestamp: Date.now(), status: 'pending' }`. -/
def optimisticTransaction (req : SendMoneyRequest) (now : Nat) : Transaction :=
  { id := "temp-" ++ toString now
    amount := req.amount
    recipient := req.recipient
    timestamp := now
    status := Status.pending }

/-- `useSendMoney.onMutate`: snapshot the cache into the context and
prepend the optimistic transaction (`setQueryData` with default `old = []`).
Returns the updated cache and the context `{ previousTransactions, newTransaction }`. -/
def onMutate (req : SendMoneyRequest) (now : Nat) (cache : Cache) :
    Cache × MutationContext :=
  (some (optimisticTransaction req now :: cache.getD []),
   { previousTransactions := cache, newTransaction := req })

/-- `useSendMoney.onError`: `if (context?.previousTransactions)
setQueryData(previousTransactions)`. When the snapshot is `undefined`
(`none`) the guard is falsy and the cache is left untouched; an empty
array `[]` is truthy in JS, so `some []` is restored. -/
def onError (ctx : MutationContext) (cache : Cache) : Cache :=
  match ctx.previousTransactions with
  | some prev => some prev
  | none => cache

/-- The payload resubmitted by the retry closure created in `onError`:
`mutation.mutate(context.newTransaction)`. -/
def retryRequest (ctx : MutationContext) : SendMoneyRequest :=
  ctx.newTransaction

/-- The predicate of the `onSuccess` filter:
`t.id.startsWith('temp-')`. -/
def isTempId (t : Transaction) : Bool :=
  strStartsWith t.id "temp-"

/-- `useSendMoney.onSuccess`: `setQueryData(old => [data,
...old.filter(t => not t.id.startsWith('temp-'))])`. -/
def onSuccess (data : Transaction) (cache : Cache) : Cache :=
  some (data :: (cache.getD []).filter (fun t => !(isTempId t)))

/-- Default options of the `QueryClient` constructed in main.tsx:
`queries: { retry: false, refetchOnWindowFocus: false },
mutations: { retry: false }`. -/
structure QueryClientDefaults where
  queriesRetry : Bool
  queriesRefetchOnWindowFocus : Bool
  mutationsRetry : Bool
deriving DecidableEq

/-- The query client configuration from main.tsx. -/
def queryClientConfig : QueryClientDefaults :=
  { queriesRetry := false
    queriesRefetchOnWindowFocus := false
    mutationsRetry := false }

/-- Identifier assigned by the mock POST handler:
`tx-Date.now()-randomSuffix` (src/api/transactions.ts). -/
def serverId (now : Nat) (suffix : String) : String :=
  "tx-" ++ toString now ++ "-" ++ suffix

/-- The transaction created by the mock POST /api/transactions handler:
`{ id: serverId, amount: body.amount, recipient: body.recipient,
timestamp: Date.now(), status: 'completed' }`. -/
def serverTransaction (body : SendMoneyRequest) (now : Nat) (suffix : String) :
    Transaction :=
  { id := serverId now suffix
    amount := body.amount
    recipient := body.recipient
    timestamp := now
    status := Status.completed }

/-- The fixed list returned by the mock GET /api/transactions handler. -/
def seedTransactions (now : Nat) : List Transaction :=
  [ { id := "1", amount := 150, recipient := "Alice Johnson",
      timestamp := now - 3600000, status := Status.completed },
    { id := "2", amount := 151/2, recipient := "Bob Smith",
      timestamp := now - 7200000, status := Status.completed },
    { id := "3", amount := 200, recipient := "Charlie Brown",
      timestamp := now - 10800000, status := Status.completed } ]

/-- Result of `applyChaos`: the latency awaited and the `shouldError` flag. -/
structure ChaosOutcome where
  latency : ℚ
  shouldError : Bool
deriving DecidableEq

/-- `applyChaos` from src/api/transactions.ts. `r1` and `r2` are the two
`Math.random()` draws (each in `[0, 1)`): latency is `r1 * 5000` ms and
the call errors when `r2 < 0.1`. With chaos mode disabled it returns
immediately with `shouldError = false` and no delay. -/
def applyChaos (chaosModeEnabled : Bool) (r1 r2 : ℚ) : ChaosOutcome :=
  if !chaosModeEnabled then { latency := 0, shouldError := false }
  else { latency := r1 * 5000, shouldError := decide (r2 < 1/10) }

/-- An HTTP-shaped mock response: `HttpResponse.json(body, {status})` on
the success path, or `HttpResponse.json({error}, {status: 500})`. -/
inductive ApiResult (α : Type) where
  | ok (status : Nat) (body : α)
  | err (status : Nat) (message : String)
deriving DecidableEq

/-- The mock GET /api/transactions handler: apply chaos, then either a
500 error or the seed list. The chaos outcome (containing the awaited
latency) is returned alongside the response. -/
def getTransactionsHandler (chaosModeEnabled : Bool) (r1 r2 : ℚ) (now : Nat) :
    ChaosOutcome × ApiResult (List Transaction) :=
  let chaos := applyChaos chaosModeEnabled r1 r2
  if chaos.shouldError then (chaos, ApiResult.err 500 "Internal server error")
  else (chaos, ApiResult.ok 200 (seedTransactions now))

/-- The mock POST /api/transactions handler: apply chaos, then either a
500 error or a 201 with the created transaction. -/
def postTransactionsHandler (chaosModeEnabled : Bool) (r1 r2 : ℚ)
    (body : SendMoneyRequest) (now : Nat) (suffix : String) :
    ChaosOutcome × ApiResult Transaction :=
  let chaos := applyChaos chaosModeEnabled r1 r2
  if chaos.shouldError then (chaos, ApiResult.err 500 "Internal server error")
  else (chaos, ApiResult.ok 201 (serverTransaction body now suffix))

/-- Numeric value of a digit string (most significant first). -/
def digitsVal (cs : List Char) : Nat :=
  cs.foldl (fun a c => 10 * a + (c.toNat - 48)) 0

/-- Decimal scan shared by the `parseFloat` model: given the characters
after the optional sign, reads `digits ('.' digits?)?` and returns the
mantissa (value of all digits run together) and the number of fractional
digits, or `none` when the text is not a number of this shape (empty,
lone dot, or stray characters). -/
def scanDecimal (cs : List Char) : Option (Nat × Nat) :=
  let intPart := cs.takeWhile Char.isDigit
  let rest := cs.dropWhile Char.isDigit
  match rest with
  | [] =>
    if intPart.isEmpty then none
    else some (digitsVal intPart, 0)
  | c :: frac =>
    if c = '.' && frac.all Char.isDigit then
      if intPart.isEmpty && frac.isEmpty then none
      else some (digitsVal (intPart ++ frac), frac.length)
    else none

/-- Sign and remaining characters of a JS numeric literal:
a leading `-` or `+` is consumed, anything else is left in place. -/
def splitSign (cs : List Char) : Bool × List Char :=
  match cs with
  | c :: r =>
    if c = '-' then (true, r)
    else if c = '+' then (false, r)
    else (false, cs)
  | [] => (false, [])

/-- JS `parseFloat` as used on the amount field. The form's input handler
restricts the field to `/^\x5cd*\x5c.?\x5cd*$/`, so this models `parseFloat`
on inputs of shape `sign? digits ('.' digits?)?` (sign included because
`parseFloat` itself accepts it) and returns `none` (NaN) on anything
else, in particular on the empty string and on a lone dot. -/
def jsParseFloat (s : String) : Option ℚ :=
  let signed := splitSign s.data
  (scanDecimal signed.2).map (fun m =>
    (if signed.1 then (-1 : ℚ) else 1) * (m.1 : ℚ) / (10 : ℚ) ^ m.2)

/-- The amount branch of `SendMoneyForm.validateForm`: required, then
`isNaN or numAmount <= 0`, then `> 10000`, then `< 0.01`; `none` means
the amount is accepted. -/
def validateAmount (amount : String) : Option String :=
  if amount = "" then some "Amount is required"
  else
    match jsParseFloat amount with
    | none => some "Amount must be greater than 0"
    | some numAmount =>
      if numAmount ≤ 0 then some "Amount must be greater than 0"
      else if numAmount > 10000 then some "Amount cannot exceed $10,000"
      else if numAmount < 1/100 then some "Amount must be at least $0.01"
      else none

/-- JS `String.prototype.trim`, modelled on the character list: drop
leading and trailing whitespace. -/
def jsTrim (s : String) : String :=
  String.mk (((s.data.dropWhile Char.isWhitespace).reverse.dropWhile
    Char.isWhitespace).reverse)

/-- The recipient branch of `SendMoneyForm.validateForm`:
`!recipient.trim()` is required, then `trim().length < 2`; `none` means
the recipient is accepted. -/
def validateRecipient (recipient : String) : Option String :=
  if jsTrim recipient = "" then some "Recipient name is required"
  else if (jsTrim recipient).length < 2 then some "Recipient name must be at least 2 characters"
  else none

/-- The error record produced by `SendMoneyForm.validateForm`. -/
structure FormErrors where
  amount : Option String
  recipient : Option String
deriving DecidableEq

/-- `SendMoneyForm.validateForm`, assembling both field validations. -/
def validateForm (amount recipient : String) : FormErrors :=
  { amount := validateAmount amount
    recipient := validateRecipient recipient }

/-- States of the send-money mutation lifecycle: idle with a cache, or
one send in flight with the current cache and the context built by
`onMutate`. -/
inductive MState where
  | idle (cache : Cache)
  | inflight (cache : Cache) (ctx : MutationContext)

/-- One step of the lifecycle: a submission runs `onMutate`; a settled
request runs `onSuccess` with the transaction created by the mock server,
or `onError` with the stored context. -/
inductive MStep : MState → MState → Prop where
  | submit (req : SendMoneyRequest) (now : Nat) (cache : Cache) :
      MStep (MState.idle cache)
        (MState.inflight (onMutate req now cache).1 (onMutate req now cache).2)
  | succeed (body : SendMoneyRequest) (now : Nat) (suffix : String)
      (cache : Cache) (ctx : MutationContext) :
      MStep (MState.inflight cache ctx)
        (MState.idle (onSuccess (serverTransaction body now suffix) cache))
  | fail (cache : Cache) (ctx : MutationContext) :
      MStep (MState.inflight cache ctx) (MState.idle (onError ctx cache))

/-- Reachability in the mutation lifecycle. -/
def Reachable : MState → MState → Prop :=
  Relation.ReflTransGen MStep

/-- Number of temporary-id (optimistic) entries in the cache. -/
def tempCount (cache : Cache) : Nat :=
  ((cache.getD []).filter isTempId).length

/-- The cache of a lifecycle state. -/
def cacheOf : MState → Cache
  | MState.idle c => c
  | MState.inflight c _ => c

/-- Number of in-flight sends of a lifecycle state (0 or 1). -/
def inflightCount : MState → Nat
  | MState.idle _ => 0
  | MState.inflight _ _ => 1

/-- The lifecycle invariant behind claim C5, strengthened so that it is
inductive: out of flight the cache is a known list with no temporary
entries; in flight it holds exactly one temporary entry, and the context
snapshot is a known temporary-free list. -/
def TempInv : MState → Prop
  | MState.idle c => ∃ l, c = some l ∧ l.filter isTempId = []
  | MState.inflight c ctx =>
      (∃ l, c = some l ∧ (l.filter isTempId).length = 1) ∧
      (∃ p, ctx.previousTransactions = some p ∧ p.filter isTempId = [])

section Lemmas

/-- A list is a `isPrefixOf` of itself followed by anything. -/
lemma isPrefixOf_append_self (l₁ l₂ : List Char) :
    List.isPrefixOf l₁ (l₁ ++ l₂) = true := by
  induction l₁ with
  | nil => simp [List.isPrefixOf]
  | cons c cs ih => simp [List.isPrefixOf_cons₂, ih]

/-- The characters of `temp-` are not a prefix of `tx-` followed by anything. -/
lemma isPrefixOf_temp_tx (l : List Char) :
    List.isPrefixOf ['t', 'e', 'm', 'p', '-'] ('t' :: 'x' :: '-' :: l) = false := by
  rw [List.isPrefixOf_cons₂, List.isPrefixOf_cons₂]
  rw [show (('e' : Char) == 'x') = false from by decide]
  simp

/-- Any string extending `temp-` passes the temporary-id test. -/
lemma strStartsWith_temp_append (x : String) :
    strStartsWith ("temp-" ++ x) "temp-" = true := by
  unfold strStartsWith
  rw [String.data_append]
  exact isPrefixOf_append_self _ _

/-- The optimistic transaction carries a temporary id. -/
lemma isTempId_optimistic (req : SendMoneyRequest) (now : Nat) :
    isTempId (optimisticTransaction req now) = true :=
  strStartsWith_temp_append (toString now)

/-- Every server-assigned id starts with `tx-`. -/
lemma serverId_startsWith_tx (now : Nat) (suffix : String) :
    strStartsWith (serverId now suffix) "tx-" = true := by
  unfold strStartsWith serverId
  rw [String.data_append, String.data_append, String.data_append,
    List.append_assoc, List.append_assoc]
  exact isPrefixOf_append_self _ _

/-- No server-assigned id starts with `temp-`. -/
lemma serverId_not_temp (now : Nat) (suffix : String) :
    strStartsWith (serverId now suffix) "temp-" = false := by
  unfold strStartsWith serverId
  rw [String.data_append, String.data_append, String.data_append,
    List.append_assoc, List.append_assoc]
  exact isPrefixOf_temp_tx _

/-- The transaction created by the mock server is never a temporary entry. -/
lemma isTempId_server (body : SendMoneyRequest) (now : Nat) (suffix : String) :
    isTempId (serverTransaction body now suffix) = false :=
  serverId_not_temp now suffix

/-- Filtering for `p` after keeping only the elements violating `p`
leaves nothing. -/
lemma filter_not_filter (p : Transaction → Bool) (l : List Transaction) :
    (l.filter (fun t => !(p t))).filter p = [] := by
  induction l with
  | nil => rfl
  | cons a l ih =>
    rw [List.filter_cons]
    cases hpa : p a <;> simp [List.filter_cons, hpa, ih]

end Lemmas

/-- Claim C1 (amended): whenever the cache held a list (`some l`) at the
moment of submission, the `onError` rollback restores the cache to exactly
that snapshot, value for value, so the optimistic pending entry is gone.
(The amendment: when the cache was `undefined` at submission, the guard
`if (context?.previousTransactions)` is falsy and no rollback happens,
see the counterexample.) -/
theorem rollback_restores_snapshot (req : SendMoneyRequest) (now : Nat)
    (l : List Transaction) :
    onError (onMutate req now (some l)).2 (onMutate req now (some l)).1 = some l := rfl

/-- Claim C1 (counterexample): when no transaction list was cached at
submission (`none`, i.e. `undefined`), a failed mutation does not restore
the pre-submission cache: the optimistic pending entry stays in the list,
so the state is not as if the submission never happened. -/
theorem rollback_skipped_on_undefined_cache :
    onError (onMutate ⟨5, "ab"⟩ 0 none).2 (onMutate ⟨5, "ab"⟩ 0 none).1 =
      some [optimisticTransaction ⟨5, "ab"⟩ 0] ∧
    isTempId (optimisticTransaction ⟨5, "ab"⟩ 0) = true ∧
    onError (onMutate ⟨5, "ab"⟩ 0 none).2 (onMutate ⟨5, "ab"⟩ 0 none).1 ≠ none := by
  refine ⟨rfl, by decide, by decide⟩

/-- Claim C3: before the request settles, `onMutate` leaves the cache
equal to the previous list with exactly one new entry prepended at the
head, whose status is pending, whose amount and recipient equal the
payload, and whose identifier carries the `temp-` prefix; the tail is the
previous list unchanged, in its original order. -/
theorem onMutate_prepends_pending (req : SendMoneyRequest) (now : Nat) (cache : Cache) :
    (onMutate req now cache).1 =
      some (optimisticTransaction req now :: cache.getD []) ∧
    (optimisticTransaction req now).status = Status.pending ∧
    (optimisticTransaction req now).amount = req.amount ∧
    (optimisticTransaction req now).recipient = req.recipient ∧
    strStartsWith (optimisticTransaction req now).id "temp-" = true :=
  ⟨rfl, rfl, rfl, rfl, strStartsWith_temp_append (toString now)⟩

/-- Claim C4: the query client configures `retry: false` for mutations
(and queries), so no automatic retry occurs, and the retry closure
created in `onError` resubmits exactly the payload of the failed
request (the `newTransaction` stored by `onMutate`). -/
theorem retry_manual_same_payload (req : SendMoneyRequest) (now : Nat) (cache : Cache) :
    queryClientConfig.mutationsRetry = false ∧
    queryClientConfig.queriesRetry = false ∧
    retryRequest (onMutate req now cache).2 = req :=
  ⟨rfl, rfl, rfl⟩

/-- Claim C9: every id assigned by the mock server starts with `tx-` and
never with `temp-`, so the `onSuccess` filter (which removes entries whose
id starts with `temp-`) never removes a server-assigned record. -/
theorem server_id_never_filtered (now : Nat) (suffix : String)
    (body : SendMoneyRequest) (l : List Transaction) :
    strStartsWith (serverId now suffix) "tx-" = true ∧
    strStartsWith (serverId now suffix) "temp-" = false ∧
    isTempId (serverTransaction body now suffix) = false ∧
    (∀ t ∈ l, t.id = serverId now suffix →
      t ∈ l.filter (fun t => !(isTempId t))) := by
  refine ⟨serverId_startsWith_tx now suffix, serverId_not_temp now suffix,
    isTempId_server body now suffix, ?_⟩
  intro t ht hid
  rw [List.mem_filter]
  refine ⟨ht, ?_⟩
  rw [isTempId, hid, serverId_not_temp]
  rfl

/-- Claim C9 (witness): a concrete server transaction is kept by the
success-path filter. -/
theorem server_id_never_filtered_at :
    strStartsWith (serverId 0 "abc") "temp-" = false ∧
    serverTransaction ⟨5, "ab"⟩ 0 "abc" ∈
      [serverTransaction ⟨5, "ab"⟩ 0 "abc"].filter (fun t => !(isTempId t)) := by
  refine ⟨(server_id_never_filtered 0 "abc" ⟨5, "ab"⟩ []).2.1, ?_⟩
  exact (server_id_never_filtered 0 "abc" ⟨5, "ab"⟩
    [serverTransaction ⟨5, "ab"⟩ 0 "abc"]).2.2.2 _ (by simp) rfl

/-- Claim C10: with chaos mode disabled, `applyChaos` adds no delay and
reports no error, both handlers succeed deterministically (200 with the
seed list, 201 with the created transaction), and a 500 error is possible
only when chaos mode is enabled and the error draw is below 0.1. -/
theorem chaos_disabled_deterministic (r1 r2 : ℚ) (now : Nat)
    (body : SendMoneyRequest) (suffix : String) :
    applyChaos false r1 r2 = { latency := 0, shouldError := false } ∧
    (getTransactionsHandler false r1 r2 now).2 =
      ApiResult.ok 200 (seedTransactions now) ∧
    (postTransactionsHandler false r1 r2 body now suffix).2 =
      ApiResult.ok 201 (serverTransaction body now suffix) ∧
    (∀ chaosModeEnabled : Bool,
      (getTransactionsHandler chaosModeEnabled r1 r2 now).2 =
        ApiResult.err 500 "Internal server error" →
      chaosModeEnabled = true ∧ r2 < 1/10) ∧
    (∀ chaosModeEnabled : Bool,
      (postTransactionsHandler chaosModeEnabled r1 r2 body now suffix).2 =
        ApiResult.err 500 "Internal server error" →
      chaosModeEnabled = true ∧ r2 < 1/10) := by
  refine ⟨rfl, rfl, rfl, ?_, ?_⟩ <;> intro enabled herr <;> cases enabled
  · exact absurd herr (by simp [getTransactionsHandler, applyChaos])
  · by_cases h : r2 < 1/10
    · exact ⟨rfl, h⟩
    · have h10 : ¬r2 < (10 : ℚ)⁻¹ := by rw [← one_div]; exact h
      exact absurd herr (by simp [getTransactionsHandler, applyChaos, h10])
  · exact absurd herr (by simp [postTransactionsHandler, applyChaos])
  · by_cases h : r2 < 1/10
    · exact ⟨rfl, h⟩
    · have h10 : ¬r2 < (10 : ℚ)⁻¹ := by rw [← one_div]; exact h
      exact absurd herr (by simp [postTransactionsHandler, applyChaos, h10])

/-- Claim C10 (witness): the disabled-path equations at concrete draws,
and the error characterization applied to a concrete erroring call. -/
theorem chaos_disabled_deterministic_at :
    applyChaos false (1/2) (3/4) = { latency := 0, shouldError := false } ∧
    (true = true ∧ (0 : ℚ) < 1/10) := by
  constructor
  · exact (chaos_disabled_deterministic (1/2) (3/4) 7 ⟨5, "ab"⟩ "x").1
  · refine (chaos_disabled_deterministic (1/2) 0 7 ⟨5, "ab"⟩ "x").2.2.2.1 true ?_
    simp [getTransactionsHandler, applyChaos, show (0 : ℚ) < 1/10 from by norm_num]

/-- Claim C2: after a successful mutation, the cache is the server
transaction prepended to the old list purged of temporary entries; the
server record sits at the head, its id occurs exactly once (given that the
server id is fresh, which the mock guarantees by construction), no
temporary-id entry remains, and no duplicate is introduced. -/
theorem onSuccess_reconciles (data : Transaction) (old : List Transaction)
    (hid : isTempId data = false)
    (hfresh : data.id ∉ old.map Transaction.id) :
    onSuccess data (some old) =
      some (data :: old.filter (fun t => !(isTempId t))) ∧
    (data :: old.filter (fun t => !(isTempId t))).head? = some data ∧
    ((data :: old.filter (fun t => !(isTempId t))).map Transaction.id).count
      data.id = 1 ∧
    (data :: old.filter (fun t => !(isTempId t))).filter isTempId = [] ∧
    ((old.map Transaction.id).Nodup →
      ((data :: old.filter (fun t => !(isTempId t))).map Transaction.id).Nodup) := by
  have hsub : List.Sublist ((old.filter (fun t => !(isTempId t))).map Transaction.id)
      (old.map Transaction.id) :=
    (List.filter_sublist old).map Transaction.id
  have hnotmem : data.id ∉ (old.filter (fun t => !(isTempId t))).map Transaction.id :=
    fun hmem => hfresh (hsub.subset hmem)
  refine ⟨rfl, rfl, ?_, ?_, ?_⟩
  · rw [List.map_cons, List.count_cons_self,
      List.count_eq_zero.mpr hnotmem]
  · rw [List.filter_cons]
    simp only [hid, Bool.false_eq_true, if_false, cond_false]
    exact filter_not_filter isTempId old
  · intro hnd
    rw [List.map_cons]
    exact List.nodup_cons.mpr ⟨hnotmem, hnd.sublist hsub⟩

/-- Claim C2 (witness): a concrete server transaction reconciled into the
seed list occurs exactly once. -/
theorem onSuccess_reconciles_at :
    isTempId (serverTransaction ⟨5, "ab"⟩ 9 "z") = false ∧
    (serverTransaction ⟨5, "ab"⟩ 9 "z").id ∉
      (seedTransactions 9).map Transaction.id ∧
    ((serverTransaction ⟨5, "ab"⟩ 9 "z" ::
      (seedTransactions 9).filter (fun t => !(isTempId t))).map
        Transaction.id).count (serverTransaction ⟨5, "ab"⟩ 9 "z").id = 1 := by
  have h1 : isTempId (serverTransaction ⟨5, "ab"⟩ 9 "z") = false := by decide
  have h2 : (serverTransaction ⟨5, "ab"⟩ 9 "z").id ∉
      (seedTransactions 9).map Transaction.id := by decide
  exact ⟨h1, h2, (onSuccess_reconciles _ _ h1 h2).2.2.1⟩

/-- Claim C8: with chaos mode enabled, every mock call delays by
`r1 * 5000` ms, which lies in `[0, 5000)` for a draw `r1 ∈ [0, 1)`, both
handlers experience exactly the `applyChaos` outcome, and the call returns
a 500 error exactly when the second draw is below `0.1`. -/
theorem chaos_enabled_behaviour (r1 r2 : ℚ) (now : Nat)
    (body : SendMoneyRequest) (suffix : String)
    (h0 : 0 ≤ r1) (h1 : r1 < 1) :
    (applyChaos true r1 r2).latency = r1 * 5000 ∧
    0 ≤ (applyChaos true r1 r2).latency ∧
    (applyChaos true r1 r2).latency < 5000 ∧
    ((applyChaos true r1 r2).shouldError = true ↔ r2 < 1/10) ∧
    (getTransactionsHandler true r1 r2 now).1 = applyChaos true r1 r2 ∧
    (postTransactionsHandler true r1 r2 body now suffix).1 = applyChaos true r1 r2 ∧
    ((getTransactionsHandler true r1 r2 now).2 =
      ApiResult.err 500 "Internal server error" ↔ r2 < 1/10) ∧
    ((postTransactionsHandler true r1 r2 body now suffix).2 =
      ApiResult.err 500 "Internal server error" ↔ r2 < 1/10) := by
  have hbound : r1 * 5000 < 5000 := by nlinarith
  have hnn : (0 : ℚ) ≤ r1 * 5000 := mul_nonneg h0 (by norm_num)
  have hg1 : (getTransactionsHandler true r1 r2 now).1 = applyChaos true r1 r2 := by
    cases hb : (applyChaos true r1 r2).shouldError <;>
      simp [getTransactionsHandler, hb]
  have hp1 : (postTransactionsHandler true r1 r2 body now suffix).1 =
      applyChaos true r1 r2 := by
    cases hb : (applyChaos true r1 r2).shouldError <;>
      simp [postTransactionsHandler, hb]
  have hgerr : (getTransactionsHandler true r1 r2 now).2 =
      ApiResult.err 500 "Internal server error" ↔ r2 < 1/10 := by
    rw [one_div]
    by_cases h : r2 < (10 : ℚ)⁻¹
    · have hb : (applyChaos true r1 r2).shouldError = true := by
        simp [applyChaos, one_div, h]
      simp [getTransactionsHandler, hb, h]
    · have hb : (applyChaos true r1 r2).shouldError = false := by
        simp [applyChaos, one_div, h]
      simp [getTransactionsHandler, hb, h]
  have hperr : (postTransactionsHandler true r1 r2 body now suffix).2 =
      ApiResult.err 500 "Internal server error" ↔ r2 < 1/10 := by
    rw [one_div]
    by_cases h : r2 < (10 : ℚ)⁻¹
    · have hb : (applyChaos true r1 r2).shouldError = true := by
        simp [applyChaos, one_div, h]
      simp [postTransactionsHandler, hb, h]
    · have hb : (applyChaos true r1 r2).shouldError = false := by
        simp [applyChaos, one_div, h]
      simp [postTransactionsHandler, hb, h]
  refine ⟨rfl, hnn, hbound, ?_, hg1, hp1, hgerr, hperr⟩
  simp [applyChaos]

/-- Claim C8 (witness): the enabled-path characterization at the concrete
draws `r1 = 1/2`, `r2 = 0`. -/
theorem chaos_enabled_behaviour_at :
    (0 : ℚ) ≤ 1/2 ∧ (1/2 : ℚ) < 1 ∧
    (applyChaos true (1/2) 0).latency = (1/2 : ℚ) * 5000 ∧
    ((applyChaos true (1/2) 0).shouldError = true ↔ (0 : ℚ) < 1/10) := by
  refine ⟨by norm_num, by norm_num, ?_, ?_⟩
  · exact (chaos_enabled_behaviour (1/2) 0 7 ⟨5, "ab"⟩ "x"
      (by norm_num) (by norm_num)).1
  · exact (chaos_enabled_behaviour (1/2) 0 7 ⟨5, "ab"⟩ "x"
      (by norm_num) (by norm_num)).2.2.2.1

/-- Claim C6: amount validation rejects input that does not parse to a
number, input parsing to zero or to a negative number, and input parsing
above 10000; it accepts every input parsing into the closed interval
`[0.01, 10000]`. -/
theorem amount_validation (s : String) :
    (jsParseFloat s = none → (validateAmount s).isSome = true) ∧
    (∀ x : ℚ, jsParseFloat s = some x → x ≤ 0 → (validateAmount s).isSome = true) ∧
    (∀ x : ℚ, jsParseFloat s = some x → 10000 < x → (validateAmount s).isSome = true) ∧
    (∀ x : ℚ, jsParseFloat s = some x → 1/100 ≤ x → x ≤ 10000 →
      validateAmount s = none) := by
  by_cases hs : s = ""
  · subst hs
    have hp : jsParseFloat "" = none := by decide
    refine ⟨fun _ => rfl, ?_, ?_, ?_⟩ <;> intro x hx
    · rw [hp] at hx; exact absurd hx (by simp)
    · rw [hp] at hx; exact absurd hx (by simp)
    · rw [hp] at hx; exact absurd hx (by simp)
  · refine ⟨?_, ?_, ?_, ?_⟩
    · intro hnone
      simp only [validateAmount, if_neg hs, hnone, Option.isSome_some]
    · intro x hx hle
      simp only [validateAmount, if_neg hs, hx]
      rw [if_pos hle]
      rfl
    · intro x hx hgt
      simp only [validateAmount, if_neg hs, hx]
      rw [if_neg (by linarith : ¬x ≤ 0), if_pos hgt]
      rfl
    · intro x hx hlo hhi
      simp only [validateAmount, if_neg hs, hx]
      rw [if_neg (by linarith : ¬x ≤ 0), if_neg (by linarith : ¬10000 < x),
        if_neg (by linarith : ¬x < 1/100)]

/-- Claim C6 (witness): the validation decisions at concrete amount
strings covering each case. -/
theorem amount_validation_at :
    (validateAmount "abc").isSome = true ∧
    (validateAmount "0").isSome = true ∧
    (validateAmount "-5").isSome = true ∧
    (validateAmount "10000.01").isSome = true ∧
    validateAmount "0.01" = none ∧
    validateAmount "10000" = none := by
  have habc : jsParseFloat "abc" = none := by decide
  have h0 : jsParseFloat "0" = some 0 := by
    norm_num [jsParseFloat, show splitSign "0".data = (false, ['0']) from by decide,
      show scanDecimal ['0'] = some (0, 0) from by decide]
  have hm5 : jsParseFloat "-5" = some (-5) := by
    norm_num [jsParseFloat, show splitSign "-5".data = (true, ['5']) from by decide,
      show scanDecimal ['5'] = some (5, 0) from by decide]
  have hhi : jsParseFloat "10000.01" = some (1000001/100) := by
    norm_num [jsParseFloat,
      show splitSign "10000.01".data = (false, "10000.01".data) from by decide,
      show scanDecimal "10000.01".data = some (1000001, 2) from by decide]
  have hlo : jsParseFloat "0.01" = some (1/100) := by
    norm_num [jsParseFloat,
      show splitSign "0.01".data = (false, "0.01".data) from by decide,
      show scanDecimal "0.01".data = some (1, 2) from by decide]
  have hok : jsParseFloat "10000" = some 10000 := by
    norm_num [jsParseFloat,
      show splitSign "10000".data = (false, "10000".data) from by decide,
      show scanDecimal "10000".data = some (10000, 0) from by decide]
  exact ⟨(amount_validation "abc").1 habc,
    (amount_validation "0").2.1 0 h0 le_rfl,
    (amount_validation "-5").2.1 (-5) hm5 (by norm_num),
    (amount_validation "10000.01").2.2.1 (1000001/100) hhi (by norm_num),
    (amount_validation "0.01").2.2.2 (1/100) hlo le_rfl (by norm_num),
    (amount_validation "10000").2.2.2 10000 hok (by norm_num) le_rfl⟩

/-- Claim C7: recipient validation rejects input that trims to the empty
string (empty or whitespace-only) and input whose trimmed length is 1, and
accepts every input whose trimmed length is at least 2. -/
theorem recipient_validation (r : String) :
    (jsTrim r = "" → (validateRecipient r).isSome = true) ∧
    ((jsTrim r).length = 1 → (validateRecipient r).isSome = true) ∧
    (2 ≤ (jsTrim r).length → validateRecipient r = none) := by
  refine ⟨?_, ?_, ?_⟩
  · intro h
    simp only [validateRecipient, if_pos h, Option.isSome_some]
  · intro h
    have hne : ¬jsTrim r = "" := by
      intro he
      rw [he] at h
      exact absurd h (by decide)
    simp only [validateRecipient, if_neg hne,
      if_pos (show (jsTrim r).length < 2 by omega), Option.isSome_some]
  · intro h
    have hne : ¬jsTrim r = "" := by
      intro he
      rw [he] at h
      exact absurd h (by decide)
    simp only [validateRecipient, if_neg hne,
      if_neg (show ¬(jsTrim r).length < 2 by omega)]

/-- Claim C7 (witness): the validation decisions at concrete recipient
strings covering each case. -/
theorem recipient_validation_at :
    (validateRecipient "   ").isSome = true ∧
    (validateRecipient " a ").isSome = true ∧
    validateRecipient " ab " = none := by
  refine ⟨(recipient_validation "   ").1 (by decide),
    (recipient_validation " a ").2.1 (by decide),
    (recipient_validation " ab ").2.2 (by decide)⟩

/-- One lifecycle step preserves the strengthened temporary-entry
invariant. -/
lemma tempInv_step {s t : MState} (h : MStep s t) (hs : TempInv s) : TempInv t := by
  cases h with
  | submit req now cache =>
    obtain ⟨l, rfl, hl⟩ := hs
    refine ⟨⟨optimisticTransaction req now :: l, rfl, ?_⟩, ⟨l, rfl, hl⟩⟩
    rw [List.filter_cons]
    simp [isTempId_optimistic, hl]
  | succeed body now suffix cache ctx =>
    obtain ⟨⟨l, rfl, _⟩, _⟩ := hs
    refine ⟨serverTransaction body now suffix ::
      l.filter (fun u => !(isTempId u)), rfl, ?_⟩
    rw [List.filter_cons]
    simp only [isTempId_server, Bool.false_eq_true, if_false, cond_false]
    exact filter_not_filter isTempId l
  | fail cache ctx =>
    obtain ⟨_, ⟨p, hp, hpf⟩⟩ := hs
    have he : onError ctx cache = some p := by
      unfold onError
      rw [hp]
    exact ⟨p, he, hpf⟩

/-- The strengthened invariant holds in every state reachable from a
state satisfying it. -/
lemma reachable_tempInv {s t : MState} (h : Reachable s t) (hs : TempInv s) :
    TempInv t := by
  induction h with
  | refl => exact hs
  | tail _ hstep ih => exact tempInv_step hstep ih

/-- Claim C5 (amended): starting from a cache that holds a list with no
temporary entries, every reachable lifecycle state has exactly as many
temporary-id entries as in-flight sends: one while a send is in flight
(never duplicated), zero after settlement — the optimistic entry is
removed or replaced. (The amendment: this requires the cache to be a
known list at submission; starting from an `undefined` cache, a failed
send leaves its optimistic entry behind, see the counterexample.) -/
theorem lifecycle_temp_invariant (l₀ : List Transaction) (s : MState)
    (h₀ : l₀.filter isTempId = [])
    (h : Reachable (MState.idle (some l₀)) s) :
    tempCount (cacheOf s) = inflightCount s := by
  have hinv := reachable_tempInv h ⟨l₀, rfl, h₀⟩
  cases s with
  | idle c =>
    obtain ⟨l, rfl, hl⟩ := hinv
    simp [tempCount, cacheOf, inflightCount, hl]
  | inflight c ctx =>
    obtain ⟨⟨l, rfl, hl⟩, _⟩ := hinv
    simpa [tempCount, cacheOf, inflightCount] using hl

/-- Claim C5 (witness): the invariant evaluated on a concrete run: submit
from the empty cached list, then settle successfully. -/
theorem lifecycle_temp_invariant_at :
    ([] : List Transaction).filter isTempId = [] ∧
    tempCount (cacheOf (MState.idle
      (onSuccess (serverTransaction ⟨5, "ab"⟩ 2 "z")
        (onMutate ⟨5, "ab"⟩ 1 (some [])).1))) =
      inflightCount (MState.idle
        (onSuccess (serverTransaction ⟨5, "ab"⟩ 2 "z")
          (onMutate ⟨5, "ab"⟩ 1 (some [])).1)) := by
  refine ⟨rfl, lifecycle_temp_invariant [] _ rfl ?_⟩
  exact Relation.ReflTransGen.head (MStep.submit ⟨5, "ab"⟩ 1 (some []))
    (Relation.ReflTransGen.single
      (MStep.succeed ⟨5, "ab"⟩ 2 "z" (onMutate ⟨5, "ab"⟩ 1 (some [])).1
        (onMutate ⟨5, "ab"⟩ 1 (some [])).2))

/-- Claim C5 (counterexample): starting from an `undefined` cache (the
state of the app before any fetch succeeds), a submission that fails is
not rolled back, so a second submission reaches a state with one send in
flight but two temporary-id entries in the cache — the claimed bound of
at most one optimistic entry per in-flight send is violated, and the
first entry was neither removed nor replaced at settlement. -/
theorem lifecycle_temp_invariant_fails_from_undefined :
    Reachable (MState.idle none)
      (MState.inflight
        (some [optimisticTransaction ⟨5, "ab"⟩ 1, optimisticTransaction ⟨5, "ab"⟩ 0])
        { previousTransactions := some [optimisticTransaction ⟨5, "ab"⟩ 0]
          newTransaction := ⟨5, "ab"⟩ }) ∧
    tempCount (some [optimisticTransaction ⟨5, "ab"⟩ 1,
      optimisticTransaction ⟨5, "ab"⟩ 0]) = 2 ∧
    inflightCount (MState.inflight
      (some [optimisticTransaction ⟨5, "ab"⟩ 1, optimisticTransaction ⟨5, "ab"⟩ 0])
      { previousTransactions := some [optimisticTransaction ⟨5, "ab"⟩ 0]
        newTransaction := ⟨5, "ab"⟩ }) = 1 := by
  refine ⟨?_, by decide, rfl⟩
  exact Relation.ReflTransGen.head (MStep.submit ⟨5, "ab"⟩ 0 none)
    (Relation.ReflTransGen.head
      (MStep.fail (onMutate ⟨5, "ab"⟩ 0 none).1 (onMutate ⟨5, "ab"⟩ 0 none).2)
      (Relation.ReflTransGen.single
        (MStep.submit ⟨5, "ab"⟩ 1 (some [optimisticTransaction ⟨5, "ab"⟩ 0]))))

end NetworkSim
